import Mathlib

/-!
Verification of the Bidar authentication microservice.

The FastAPI route handlers in `src/api/routes/auth.py` and
`src/api/routes/rbac.py` are embedded directly from the source.  The module
`src/crud/auth.py` (the authentication core: role hierarchy, JWT helpers,
password hashing, user lookup) is absent from the source snapshot — only its
callers and its test suite are present — so its functions are modelled from
the specification (§4.1–§4.5) and the expectations recorded in
`tests/test_auth.py` and `tests/test_rbac.py`; each such definition carries a
`Modelled from the spec:` doc comment.

JWT encoding via the external `python-jose` library is treated as an
injective external codec: issued tokens are represented by their decoded
claim payloads, and inbound token strings are interpreted through an
explicit decoder parameter `jwtDec : String → Except JWTError Claims`
standing for `jwt.decode(..., settings.JWT_SECRET_KEY, ...)`.
Password hashing via the external `passlib` library is modelled as an ideal
salted hash: the hash of a secret is the pair of the fresh salt and the
secret itself, which renders the hash injective (collision-free) and keeps
`verify` a pure recomputation, exactly the contract §4.1 states.
-/

set_option maxRecDepth 20000

namespace Bidar

/-- JWT claim payload, mirroring the flat dict passed to `jwt.encode` /
returned by `jwt.decode`: `sub`, `user_id`, `role`, `type`, `exp`. -/
structure Claims where
  sub : Option String := none
  user_id : Option Int := none
  role : Option String := none
  type : Option String := none
  exp : Option Nat := none
deriving Repr, DecidableEq

/-- Errors raised by the external JWT decoder (`jose.JWTError`):
malformed structure, bad signature, or expired token. -/
inductive JWTError where
  | malformed
  | invalidSignature
  | expired
deriving Repr, DecidableEq

/-- Modelled from the spec: `passlib`'s bcrypt hash output from the missing
`src/crud/auth.py`, an opaque string with a per-hash random salt baked in.
Modelled as an ideal salted hash: the salt together with an injective
digest of the secret (represented by the secret itself, i.e. assuming no
collisions). -/
structure HashedCredential where
  salt : Nat
  digest : String
deriving Repr, DecidableEq

/-- Modelled from the spec: `get_password_hash` in the missing
`src/crud/auth.py` (§4.1 `hash`): produces a self-salted hash; the salt is
drawn fresh per call, so it is an explicit argument here. -/
def get_password_hash (salt : Nat) (password : String) : HashedCredential :=
  { salt := salt, digest := password }

/-- Modelled from the spec: `verify_password` in the missing
`src/crud/auth.py` (§4.1 `verify`): recomputes with the embedded salt and
compares; never raises. -/
def verify_password (plain_password : String) (hashed_password : HashedCredential) : Bool :=
  hashed_password.digest == plain_password

/-- `User` database model from `src/models/users.py` (the fields that
participate in authentication decisions); `hashed_password` is the modelled
credential hash. -/
structure User where
  id : Option Int := none
  username : String
  email : String := ""
  hashed_password : HashedCredential
  is_active : Bool := true
  is_superuser : Bool := false
  role : String := "user"
deriving Repr, DecidableEq

/-- `HTTPException` as observed by the caller: status code, detail message
and response headers. -/
structure HttpError where
  status_code : Nat
  detail : String
  headers : List (String × String) := []
deriving Repr, DecidableEq

/-- Modelled from the spec: `ROLE_HIERARCHY` dict in the missing
`src/crud/auth.py`, pinned by `tests/test_rbac.py::test_role_hierarchy_levels`:
user ↦ 0, moderator ↦ 1, admin ↦ 2, super_admin ↦ 3. -/
def ROLE_HIERARCHY (role : String) : Option Nat :=
  if role = "user" then some 0
  else if role = "moderator" then some 1
  else if role = "admin" then some 2
  else if role = "super_admin" then some 3
  else none

/-- Modelled from the spec: the level lookup with default 0 for unknown
role strings (`ROLE_HIERARCHY.get(role, 0)`), §4.3 `level`. -/
def role_level (role : String) : Nat :=
  (ROLE_HIERARCHY role).getD 0

/-- Modelled from the spec: `check_role_permission` in the missing
`src/crud/auth.py` (§4.3 `permits`): `level(actor) >= level(required)`. -/
def check_role_permission (actor_role : String) (required_role : String) : Bool :=
  role_level required_role ≤ role_level actor_role

/-- The level function as the claim words it, for comparison with the
code-side `role_level`. -/
def levelSpec (role : String) : Nat :=
  if role = "user" then 0
  else if role = "moderator" then 1
  else if role = "admin" then 2
  else if role = "super_admin" then 3
  else 0

/-- Modelled from the spec: `create_access_token` in the missing
`src/crud/auth.py` (§4.2 `issue_access_token`): signs the given claims with
`exp = now + ttl`.  The jose encoder being external and injective, the
issued token is represented by its claim payload; `expiresSeconds` is the
`expires_delta` the caller passes (the routes pass
`timedelta(minutes=settings.ACCESS_TOKEN_EXPIRE_MINUTES)`). -/
def create_access_token (data : Claims) (now : Nat) (expiresSeconds : Nat) : Claims :=
  { data with exp := some (now + expiresSeconds) }

/-- Modelled from the spec: `create_refresh_token` in the missing
`src/crud/auth.py` (§4.2 `issue_refresh_token`): same claims plus
`type: "refresh"`, expiry `now + refresh_ttl` (config default 7 days). -/
def create_refresh_token (data : Claims) (now : Nat) (refreshDays : Nat) : Claims :=
  { data with type := some "refresh", exp := some (now + refreshDays * 86400) }

/-- Modelled from the spec: `get_user` in the missing `src/crud/auth.py`
(§6 `UserLookup.by_username`): fetch the user record by username from the
store, `none` if absent.  The database is modelled as the list of stored
user rows. -/
def get_user (db : List User) (username : String) : Option User :=
  db.find? (fun u => u.username == username)

/-- Modelled from the spec: `authenticate_user` in the missing
`src/crud/auth.py` (§4.4 `authenticate`): look up by username; `none` if
absent; if present, return the user regardless of `is_active` when the
password verifies, `none` when verification fails.  Pinned by
`tests/test_auth.py::test_authenticate_user_{success,wrong_password,not_found,inactive}`. -/
def authenticate_user (db : List User) (username : String) (password : String) :
    Option User :=
  match get_user db username with
  | none => none
  | some user =>
      if verify_password password user.hashed_password then some user else none

/-- Response model of the permission endpoint
(`rbac.py::VerifyPermissionResponse`). -/
structure VerifyPermissionResponse where
  allowed : Bool
  user_id : Option Int := none
  username : Option String := none
  role : String
deriving Repr, DecidableEq

/-- Modelled from the spec: `verify_token_and_role` in the missing
`src/crud/auth.py` (§4.5 `verify_permission` composed of `resolve_identity`
then the role comparison), pinned by `tests/test_rbac.py`: decode the
token (401 "Could not validate credentials" on any decode error), default
the embedded role to "user", 403 "Insufficient permissions" when
`check_role_permission` denies, else return
`{allowed, user_id, username, role}` from the token claims alone — no
database access. -/
def verify_token_and_role (jwtDec : String → Except JWTError Claims)
    (token : String) (required_role : String) :
    Except HttpError VerifyPermissionResponse :=
  match jwtDec token with
  | .error _ =>
      .error { status_code := 401, detail := "Could not validate credentials",
               headers := [("WWW-Authenticate", "Bearer")] }
  | .ok payload =>
      let role := payload.role.getD "user"
      if check_role_permission role required_role then
        .ok { allowed := true, user_id := payload.user_id,
              username := payload.sub, role := role }
      else
        .error { status_code := 403, detail := "Insufficient permissions" }

/-- Modelled from the spec: `get_current_user` in the missing
`src/crud/auth.py` (§4.5 `resolve_identity` + user re-fetch, used by
`GET /auth/me` and other access-token endpoints): decode the bearer token;
401 if decoding fails or `sub` is missing; re-fetch the user by `sub`; 401
if absent; return the live record.  Per the spec's §3 note, the refresh
`type` tag is checked only at the refresh endpoint, so no `type` check
happens here. -/
def get_current_user (jwtDec : String → Except JWTError Claims)
    (db : List User) (token : String) : Except HttpError User :=
  match jwtDec token with
  | .error _ =>
      .error { status_code := 401, detail := "Could not validate credentials",
               headers := [("WWW-Authenticate", "Bearer")] }
  | .ok payload =>
      match payload.sub with
      | none =>
          .error { status_code := 401, detail := "Could not validate credentials",
                   headers := [("WWW-Authenticate", "Bearer")] }
      | some username =>
          match get_user db username with
          | none =>
              .error { status_code := 401, detail := "Could not validate credentials",
                       headers := [("WWW-Authenticate", "Bearer")] }
          | some user => .ok user

/-- `TokenResponse` schema from `src/schemas/auth.py`, with the issued
tokens represented by their claim payloads. -/
structure TokenResponseM where
  access_token : Claims
  refresh_token : Option Claims := none
  token_type : String := "bearer"
  expires_in : Option Nat := none
deriving Repr, DecidableEq

/-- `POST /auth/token` handler `login_for_access_token` from
`src/api/routes/auth.py`: authenticate; on failure raise
401 "Incorrect username or password" with a `WWW-Authenticate: Bearer`
header; on success issue an access token and a refresh token with claims
`{sub: user.username, user_id: user.id, role: user.role}` and return them
with `token_type "bearer"` and
`expires_in = settings.ACCESS_TOKEN_EXPIRE_MINUTES * 60`.
`accessMinutes` stands for `settings.ACCESS_TOKEN_EXPIRE_MINUTES`
(default 30) and `refreshDays` for `settings.REFRESH_TOKEN_EXPIRE_DAYS`
(default 7), from `src/core/config.py`. -/
def login_for_access_token (db : List User) (now : Nat)
    (accessMinutes : Nat) (refreshDays : Nat)
    (username : String) (password : String) :
    Except HttpError TokenResponseM :=
  match authenticate_user db username password with
  | none =>
      .error { status_code := 401, detail := "Incorrect username or password",
               headers := [("WWW-Authenticate", "Bearer")] }
  | some user =>
      .ok { access_token :=
              create_access_token
                { sub := some user.username, user_id := user.id,
                  role := some user.role }
                now (accessMinutes * 60),
            refresh_token :=
              some (create_refresh_token
                { sub := some user.username, user_id := user.id,
                  role := some user.role }
                now refreshDays),
            token_type := "bearer",
            expires_in := some (accessMinutes * 60) }

/-- `POST /auth/refresh` handler `refresh_access_token` from
`src/api/routes/auth.py`: decode the presented refresh token (any
`JWTError` → 401 "Invalid refresh token"); 401 likewise when `sub` is
missing or the `type` claim differs from "refresh"; re-fetch the user by
`sub` (401 "User not found" if absent); issue a fresh access token bound to
the stored user record and return it with no refresh token. -/
def refresh_access_token (jwtDec : String → Except JWTError Claims)
    (db : List User) (now : Nat) (accessMinutes : Nat)
    (refresh_token : String) : Except HttpError TokenResponseM :=
  match jwtDec refresh_token with
  | .error _ =>
      .error { status_code := 401, detail := "Invalid refresh token" }
  | .ok payload =>
      if payload.sub = none ∨ payload.type ≠ some "refresh" then
        .error { status_code := 401, detail := "Invalid refresh token" }
      else
        match get_user db (payload.sub.getD "") with
        | none => .error { status_code := 401, detail := "User not found" }
        | some user =>
            .ok { access_token :=
                    create_access_token
                      { sub := some user.username, user_id := user.id,
                        role := some user.role }
                      now (accessMinutes * 60),
                  refresh_token := none,
                  token_type := "bearer",
                  expires_in := some (accessMinutes * 60) }

/-- Python's `str.startswith` (Lean's `String.startsWith`), computed on
the character lists so that concrete instances reduce in the kernel. -/
def startsWithM (s p : String) : Bool :=
  p.toList.isPrefixOf s.toList

/-- `POST /rbac/verify-permission` handler `verify_permission` from
`src/api/routes/rbac.py`: reject with 401 "Missing or invalid authorization
header" when the `Authorization` header is absent, empty (Python's
`not authorization`) or does not start with `"Bearer "`; otherwise strip
the prefix with `str.replace("Bearer ", "")` and delegate to
`verify_token_and_role`.  The delegate is a parameter (`vtr`), so the
handler's gating is stated for every possible downstream behavior. -/
def verify_permission (vtr : String → String → Except HttpError VerifyPermissionResponse)
    (authorization : Option String) (required_role : String) :
    Except HttpError VerifyPermissionResponse :=
  match authorization with
  | none =>
      .error { status_code := 401, detail := "Missing or invalid authorization header",
               headers := [("WWW-Authenticate", "Bearer")] }
  | some a =>
      if a = "" ∨ ¬ startsWithM a "Bearer " then
        .error { status_code := 401, detail := "Missing or invalid authorization header",
                 headers := [("WWW-Authenticate", "Bearer")] }
      else
        vtr (a.replace "Bearer " "") required_role

/-! Concrete fixtures used to instantiate the theorems below on closed
inputs, mirroring the fixtures of `tests/test_rbac.py` and
`tests/test_auth.py`. -/

/-- A concrete JWT decoder: four well-signed unexpired tokens (an admin
access token, a user access token, and alice's refresh and access tokens);
every other string fails signature verification. -/
def demoDecoder : String → Except JWTError Claims := fun s =>
  if s = "admin-token" then
    .ok { sub := some "adminuser", user_id := some 1, role := some "admin" }
  else if s = "user-token" then
    .ok { sub := some "regularuser", user_id := some 2, role := some "user" }
  else if s = "alice-refresh" then
    .ok { sub := some "alice", user_id := some 3, role := some "user",
          type := some "refresh" }
  else if s = "alice-access" then
    .ok { sub := some "alice", user_id := some 3, role := some "user" }
  else .error .invalidSignature

/-- An active stored user whose role was changed to "moderator" after her
tokens above (carrying role "user") were minted. -/
def demoAlice : User :=
  { id := some 3, username := "alice", email := "alice@example.com",
    hashed_password := get_password_hash 11 "alicepassword123",
    is_active := true, role := "moderator" }

/-- A deactivated stored user with a correct password on file. -/
def demoCarol : User :=
  { id := some 4, username := "carol", email := "carol@example.com",
    hashed_password := get_password_hash 12 "carolpassword456",
    is_active := false, role := "user" }

/-- The demo user store. -/
def demoDb : List User := [demoAlice, demoCarol]

/-! Theorems settling the claims. -/

theorem role_level_eq_levelSpec (r : String) : role_level r = levelSpec r := by
  by_cases h1 : r = "user" <;>
    by_cases h2 : r = "moderator" <;>
      by_cases h3 : r = "admin" <;>
        by_cases h4 : r = "super_admin" <;>
          simp [role_level, ROLE_HIERARCHY, levelSpec, h1, h2, h3, h4]

/-- C1: `check_role_permission(actor, required)` returns true iff
`level(actor) ≥ level(required)` where level maps user/moderator/admin/
super_admin to 0/1/2/3 and every other string to 0; the function is total
on strings and reflexive. -/
theorem check_role_permission_correct :
    (∀ actor required : String,
        check_role_permission actor required = true ↔ levelSpec required ≤ levelSpec actor) ∧
    levelSpec "user" = 0 ∧ levelSpec "moderator" = 1 ∧
    levelSpec "admin" = 2 ∧ levelSpec "super_admin" = 3 ∧
    (∀ s : String, s ≠ "user" → s ≠ "moderator" → s ≠ "admin" → s ≠ "super_admin" →
        levelSpec s = 0) ∧
    (∀ r : String, check_role_permission r r = true) := by
  refine ⟨?_, rfl, rfl, rfl, rfl, ?_, ?_⟩
  · intro actor required
    simp [check_role_permission, role_level_eq_levelSpec]
  · intro s h1 h2 h3 h4
    simp [levelSpec, h1, h2, h3, h4]
  · intro r
    simp [check_role_permission]

/-- C2: for every token whose decode succeeds, `verify_token_and_role`
(the core of `POST /rbac/verify-permission`) decides from the role claim
embedded in the token — its definition takes no database argument: with
embedded role "user" and required role "admin" it fails with
403 "Insufficient permissions"; with embedded role "admin" and required
role "moderator" it succeeds with `allowed = true` and the token's
`user_id`, `username` (sub) and role; any decode failure yields
401 "Could not validate credentials". -/
theorem verify_permission_decides_from_token
    (jwtDec : String → Except JWTError Claims) (tok : String) (p : Claims)
    (required_role : String) (hdec : jwtDec tok = .ok p) :
    (p.role = some "user" →
        verify_token_and_role jwtDec tok "admin" =
          .error { status_code := 403, detail := "Insufficient permissions" }) ∧
    (p.role = some "admin" →
        verify_token_and_role jwtDec tok "moderator" =
          .ok { allowed := true, user_id := p.user_id,
                username := p.sub, role := "admin" }) ∧
    (∀ t e, jwtDec t = .error e →
        verify_token_and_role jwtDec t required_role =
          .error { status_code := 401, detail := "Could not validate credentials",
                   headers := [("WWW-Authenticate", "Bearer")] }) := by
  refine ⟨?_, ?_, ?_⟩
  · intro hrole
    simp [verify_token_and_role, hdec, hrole, check_role_permission,
      role_level, ROLE_HIERARCHY]
  · intro hrole
    simp [verify_token_and_role, hdec, hrole, check_role_permission,
      role_level, ROLE_HIERARCHY]
  · intro t e hfail
    simp [verify_token_and_role, hfail]

theorem verify_permission_decides_from_token_witness :
    verify_token_and_role demoDecoder "admin-token" "moderator" =
      .ok { allowed := true, user_id := some 1,
            username := some "adminuser", role := "admin" } ∧
    verify_token_and_role demoDecoder "user-token" "admin" =
      .error { status_code := 403, detail := "Insufficient permissions" } ∧
    verify_token_and_role demoDecoder "garbage" "user" =
      .error { status_code := 401, detail := "Could not validate credentials",
               headers := [("WWW-Authenticate", "Bearer")] } :=
  ⟨(verify_permission_decides_from_token demoDecoder "admin-token"
      { sub := some "adminuser", user_id := some 1, role := some "admin" }
      "moderator" rfl).2.1 rfl,
   (verify_permission_decides_from_token demoDecoder "user-token"
      { sub := some "regularuser", user_id := some 2, role := some "user" }
      "admin" rfl).1 rfl,
   (verify_permission_decides_from_token demoDecoder "admin-token"
      { sub := some "adminuser", user_id := some 1, role := some "admin" }
      "user" rfl).2.2 "garbage" .invalidSignature rfl⟩

/-- C10: for every request to `POST /rbac/verify-permission` whose
`Authorization` header is absent or does not start with `"Bearer "`, the
handler fails with 401 "Missing or invalid authorization header" before
any token processing — the downstream verifier `vtr` and the required
role are universally quantified, so no value of either can make such a
request succeed. -/
theorem verify_permission_requires_bearer_header
    (vtr : String → String → Except HttpError VerifyPermissionResponse)
    (authorization : Option String) (required_role : String)
    (h : ∀ s, authorization = some s → ¬ startsWithM s "Bearer ") :
    verify_permission vtr authorization required_role =
      .error { status_code := 401, detail := "Missing or invalid authorization header",
               headers := [("WWW-Authenticate", "Bearer")] } := by
  cases authorization with
  | none => rfl
  | some a =>
      have ha := h a rfl
      simp [verify_permission, ha]

theorem verify_permission_requires_bearer_header_witness :
    verify_permission (fun _ _ => .ok { allowed := true, role := "user" })
        (some "Token abc") "user" =
      .error { status_code := 401, detail := "Missing or invalid authorization header",
               headers := [("WWW-Authenticate", "Bearer")] } ∧
    verify_permission (fun _ _ => .ok { allowed := true, role := "user" })
        none "admin" =
      .error { status_code := 401, detail := "Missing or invalid authorization header",
               headers := [("WWW-Authenticate", "Bearer")] } :=
  ⟨verify_permission_requires_bearer_header _ _ _
      (by intro s hs; cases hs; decide),
   verify_permission_requires_bearer_header _ _ _
      (by intro s hs; cases hs)⟩

/-- C3 (amended): `POST /auth/refresh` rejects with
401 "Invalid refresh token" every token whose decode fails, whose `type`
claim is not "refresh", or whose `sub` claim is missing; the converse
direction of the original claim — that a `type == "refresh"` token is
never accepted where an access token is required — does not hold (see the
counterexample), since the `type` tag is checked only at the refresh
endpoint. -/
theorem refresh_rejects_non_refresh_tokens
    (jwtDec : String → Except JWTError Claims) (db : List User)
    (now accessMinutes : Nat) (tok : String) :
    (∀ e, jwtDec tok = .error e →
        refresh_access_token jwtDec db now accessMinutes tok =
          .error { status_code := 401, detail := "Invalid refresh token" }) ∧
    (∀ p, jwtDec tok = .ok p → p.type ≠ some "refresh" →
        refresh_access_token jwtDec db now accessMinutes tok =
          .error { status_code := 401, detail := "Invalid refresh token" }) ∧
    (∀ p, jwtDec tok = .ok p → p.sub = none →
        refresh_access_token jwtDec db now accessMinutes tok =
          .error { status_code := 401, detail := "Invalid refresh token" }) := by
  refine ⟨?_, ?_, ?_⟩
  · intro e hfail
    simp [refresh_access_token, hfail]
  · intro p hdec hty
    simp [refresh_access_token, hdec, hty]
  · intro p hdec hsub
    simp [refresh_access_token, hdec, hsub]

theorem refresh_rejects_non_refresh_tokens_witness :
    refresh_access_token demoDecoder demoDb 1000 30 "garbage" =
      .error { status_code := 401, detail := "Invalid refresh token" } ∧
    refresh_access_token demoDecoder demoDb 1000 30 "alice-access" =
      .error { status_code := 401, detail := "Invalid refresh token" } :=
  ⟨(refresh_rejects_non_refresh_tokens demoDecoder demoDb 1000 30 "garbage").1
      .invalidSignature rfl,
   (refresh_rejects_non_refresh_tokens demoDecoder demoDb 1000 30 "alice-access").2.1
      { sub := some "alice", user_id := some 3, role := some "user" }
      rfl (by decide)⟩

/-- C3 counterexample: a token carrying `type == "refresh"`
(`"alice-refresh"`, which decodes to claims with `type = some "refresh"`)
is accepted by `get_current_user` — the access-token validation behind
`GET /auth/me` — which returns alice's record instead of rejecting the
token, refuting "a token carrying the claim type == \"refresh\" is never
accepted by any operation that requires an access token". -/
theorem refresh_token_accepted_by_access_path :
    demoDecoder "alice-refresh" =
      .ok { sub := some "alice", user_id := some 3, role := some "user",
            type := some "refresh" } ∧
    get_current_user demoDecoder demoDb "alice-refresh" = .ok demoAlice := by
  exact ⟨rfl, rfl⟩

/-- C4: for every refresh token that decodes with `type == "refresh"` and a
present `sub`, `POST /auth/refresh` re-fetches the user by `sub`, fails
401 "User not found" if absent, and otherwise returns only a new access
token (`refresh_token = none`) whose role claim is the user's currently
stored role — the embedded role of the presented token (`p.role`) is
arbitrary and does not appear in the result. -/
theorem refresh_reissues_from_stored_role
    (jwtDec : String → Except JWTError Claims) (db : List User)
    (now accessMinutes : Nat) (tok : String) (p : Claims) (uname : String)
    (hdec : jwtDec tok = .ok p) (hsub : p.sub = some uname)
    (hty : p.type = some "refresh") :
    (get_user db uname = none →
        refresh_access_token jwtDec db now accessMinutes tok =
          .error { status_code := 401, detail := "User not found" }) ∧
    (∀ user, get_user db uname = some user →
        refresh_access_token jwtDec db now accessMinutes tok =
          .ok { access_token :=
                  { sub := some user.username, user_id := user.id,
                    role := some user.role, type := none,
                    exp := some (now + accessMinutes * 60) },
                refresh_token := none,
                token_type := "bearer",
                expires_in := some (accessMinutes * 60) }) := by
  constructor
  · intro habs
    simp [refresh_access_token, hdec, hsub, hty, habs]
  · intro user hget
    simp [refresh_access_token, hdec, hsub, hty, hget, create_access_token]

theorem refresh_reissues_from_stored_role_witness :
    refresh_access_token demoDecoder demoDb 1000 30 "alice-refresh" =
      .ok { access_token :=
              { sub := some "alice", user_id := some 3,
                role := some "moderator", type := none, exp := some 2800 },
            refresh_token := none, token_type := "bearer",
            expires_in := some 1800 } :=
  (refresh_reissues_from_stored_role demoDecoder demoDb 1000 30
      "alice-refresh"
      { sub := some "alice", user_id := some 3, role := some "user",
        type := some "refresh" }
      "alice" rfl rfl rfl).2 demoAlice rfl

/-- C5: for every existing active user with a matching password,
`POST /auth/token` returns a token pair — an access token and a refresh
token, `token_type "bearer"` — whose access-token claims satisfy
`sub == username` and `role == user.role`, with
`expires_in = accessMinutes * 60` (the configured TTL,
`ACCESS_TOKEN_EXPIRE_MINUTES`, default 30). -/
theorem login_success_token_claims
    (db : List User) (now accessMinutes refreshDays : Nat)
    (username password : String) (user : User)
    (hauth : authenticate_user db username password = some user)
    (hact : user.is_active = true) :
    user.username = username ∧
    login_for_access_token db now accessMinutes refreshDays username password =
      .ok { access_token :=
              { sub := some username, user_id := user.id,
                role := some user.role, type := none,
                exp := some (now + accessMinutes * 60) },
            refresh_token :=
              some { sub := some username, user_id := user.id,
                     role := some user.role, type := some "refresh",
                     exp := some (now + refreshDays * 86400) },
            token_type := "bearer",
            expires_in := some (accessMinutes * 60) } := by
  have hget : get_user db username = some user := by
    unfold authenticate_user at hauth
    cases hg : get_user db username with
    | none => simp [hg] at hauth
    | some u =>
        simp only [hg] at hauth
        by_cases hv : verify_password password u.hashed_password
        · simp [hv] at hauth; exact hauth ▸ rfl
        · simp [hv] at hauth
  have hname : user.username = username := by
    have hp := List.find?_some hget
    simpa using hp
  refine ⟨hname, ?_⟩
  simp [login_for_access_token, hauth, create_access_token,
    create_refresh_token, hname]

theorem login_success_token_claims_witness :
    demoAlice.username = "alice" ∧
    login_for_access_token demoDb 1000 30 7 "alice" "alicepassword123" =
      .ok { access_token :=
              { sub := some "alice", user_id := some 3,
                role := some "moderator", type := none, exp := some 2800 },
            refresh_token :=
              some { sub := some "alice", user_id := some 3,
                     role := some "moderator", type := some "refresh",
                     exp := some 605800 },
            token_type := "bearer",
            expires_in := some 1800 } :=
  login_success_token_claims demoDb 1000 30 7 "alice" "alicepassword123"
    demoAlice rfl rfl

/-- C6: every failed login — unknown username or wrong password for an
existing user — produces the identical externally observable error:
401 "Incorrect username or password" with a `WWW-Authenticate: Bearer`
header, so the two failure causes are indistinguishable to the caller. -/
theorem login_failure_indistinguishable
    (db : List User) (now accessMinutes refreshDays : Nat)
    (username password : String) :
    (get_user db username = none →
        login_for_access_token db now accessMinutes refreshDays username password =
          .error { status_code := 401, detail := "Incorrect username or password",
                   headers := [("WWW-Authenticate", "Bearer")] }) ∧
    (∀ user, get_user db username = some user →
        verify_password password user.hashed_password = false →
        login_for_access_token db now accessMinutes refreshDays username password =
          .error { status_code := 401, detail := "Incorrect username or password",
                   headers := [("WWW-Authenticate", "Bearer")] }) := by
  constructor
  · intro habs
    simp [login_for_access_token, authenticate_user, habs]
  · intro user hget hv
    simp [login_for_access_token, authenticate_user, hget, hv]

theorem login_failure_indistinguishable_witness :
    login_for_access_token demoDb 1000 30 7 "nosuchuser" "anypassword" =
      .error { status_code := 401, detail := "Incorrect username or password",
               headers := [("WWW-Authenticate", "Bearer")] } ∧
    login_for_access_token demoDb 1000 30 7 "alice" "wrongpassword" =
      .error { status_code := 401, detail := "Incorrect username or password",
               headers := [("WWW-Authenticate", "Bearer")] } :=
  ⟨(login_failure_indistinguishable demoDb 1000 30 7 "nosuchuser"
      "anypassword").1 rfl,
   (login_failure_indistinguishable demoDb 1000 30 7 "alice"
      "wrongpassword").2 demoAlice rfl (by decide)⟩

/-- C7: `authenticate_user` returns the stored user whenever the password
verifies, for every value of `is_active` (the second conjunct places no
condition on activity, and the witness instantiates it with a deactivated
user); it returns `none` when the username is absent or when password
verification fails. -/
theorem authenticate_user_ignores_is_active
    (db : List User) (username password : String) :
    (get_user db username = none →
        authenticate_user db username password = none) ∧
    (∀ user, get_user db username = some user →
        verify_password password user.hashed_password = true →
        authenticate_user db username password = some user) ∧
    (∀ user, get_user db username = some user →
        verify_password password user.hashed_password = false →
        authenticate_user db username password = none) := by
  refine ⟨?_, ?_, ?_⟩
  · intro habs
    simp [authenticate_user, habs]
  · intro user hget hv
    simp [authenticate_user, hget, hv]
  · intro user hget hv
    simp [authenticate_user, hget, hv]

theorem authenticate_user_ignores_is_active_witness :
    demoCarol.is_active = false ∧
    authenticate_user demoDb "carol" "carolpassword456" = some demoCarol ∧
    authenticate_user demoDb "carol" "wrongpassword" = none ∧
    authenticate_user demoDb "nosuchuser" "carolpassword456" = none :=
  ⟨rfl,
   (authenticate_user_ignores_is_active demoDb "carol" "carolpassword456").2.1
      demoCarol rfl (by decide),
   (authenticate_user_ignores_is_active demoDb "carol" "wrongpassword").2.2
      demoCarol rfl (by decide),
   (authenticate_user_ignores_is_active demoDb "nosuchuser"
      "carolpassword456").1 rfl⟩

/-- C8: for every secret `s` (and salt), `verify_password` accepts
`get_password_hash` of the same secret, and for distinct secrets
`s1 ≠ s2` it rejects — returning `false` (it is a total function, it
cannot raise), the empty string against a hash of a non-empty secret
being the witness instance. -/
theorem password_hash_roundtrip
    (s s1 s2 : String) (salt salt2 : Nat) (hne : s1 ≠ s2) :
    verify_password s (get_password_hash salt s) = true ∧
    verify_password s1 (get_password_hash salt2 s2) = false := by
  constructor
  · simp [verify_password, get_password_hash]
  · simp only [verify_password, get_password_hash, beq_eq_false_iff_ne, ne_eq]
    exact fun h => hne h.symm

theorem password_hash_roundtrip_witness :
    verify_password "testpassword123" (get_password_hash 0 "testpassword123") = true ∧
    verify_password "" (get_password_hash 1 "testpassword123") = false :=
  password_hash_roundtrip "testpassword123" "" "testpassword123" 0 1 (by decide)

/-- C9: `get_password_hash` is non-deterministic across calls: two
invocations on the identical secret draw distinct fresh salts (modelled as
the explicit per-call salt argument), and distinct salts force distinct
hash outputs, since the salt is baked into the hash. -/
theorem get_password_hash_salted
    (password : String) (salt1 salt2 : Nat) (hne : salt1 ≠ salt2) :
    get_password_hash salt1 password ≠ get_password_hash salt2 password := by
  intro hc
  exact hne (congrArg HashedCredential.salt hc)

theorem get_password_hash_salted_witness :
    get_password_hash 0 "testpassword123" ≠ get_password_hash 1 "testpassword123" :=
  get_password_hash_salted "testpassword123" 0 1 (by decide)

end Bidar
